import Mathlib

/-!
Verification development for the enea-outages repository.

The definitions below are a shallow embedding of
src/enea_outages/client.py and src/enea_outages/models.py.
Strings are modelled as lists of characters.  The two regular
expressions used by EneaOutagesClient._parse_date_formats are pure
concatenations of literals and greedy character-class repetitions, so
they are embedded as an explicit chain of matcher functions, one per
regex item, with the same greedy-with-backtracking semantics and the
same leftmost-search semantics as re.search.  The character classes
approximate the Unicode classes of the Python re module: they are
exact on ASCII and on the Polish letters that occur in month names.
-/

namespace Enea

/-- Str models a Python str as a list of characters. -/
abbrev Str := List Char

/-- Characters accepted by the regex class for digits (backslash-d); ASCII decimal digits. -/
def isDigitCh (c : Char) : Bool := c.isDigit

/-- Characters accepted by the regex whitespace class (backslash-s): the ASCII whitespace set. -/
def isSpaceCh (c : Char) : Bool :=
  c == ' ' || c == '\t' || c == '\n' || c == '\r' || c == '\u000B' || c == '\u000C'

/-- Characters accepted by the regex word class (backslash-w): ASCII alphanumerics,
underscore, and (as an approximation of Unicode word characters, exact on the
Polish letters appearing in month names) every character above the ASCII range. -/
def isWordCh (c : Char) : Bool :=
  c.isAlphanum || c == '_' || decide (128 ≤ c.toNat)

/-- Backtracking loop for one greedy repetition: tries to consume lo + d
characters first, then lo + d - 1, and so on down to lo, returning the first
continuation that succeeds.  This is the backtracking order of the re module
for a greedy bounded repetition. -/
def tryDown (f : Nat → Option α) (lo : Nat) : Nat → Option α
  | 0 => f lo
  | d + 1 =>
    match f (lo + d + 1) with
    | some r => some r
    | none => tryDown f lo d

/-- Matches a literal regex fragment, then continues with the rest of the pattern. -/
def matchLit (s : Str) (next : Str → Option α) (cs : Str) : Option α :=
  if s.isPrefixOf cs then next (cs.drop s.length) else none

/-- Matches a greedy, non-capturing character-class repetition with lower bound
lo and optional upper bound hi, then continues with the rest of the pattern. -/
def matchCls (p : Char → Bool) (lo : Nat) (hi : Option Nat) (next : Str → Option α)
    (cs : Str) : Option α :=
  let run := (cs.takeWhile p).length
  let maxK := min run (hi.getD run)
  if maxK < lo then none else tryDown (fun k => next (cs.drop k)) lo (maxK - lo)

/-- Matches a greedy capturing character-class repetition; on success the
consumed characters are returned as the captured group, paired with the
result of the rest of the pattern. -/
def matchClsCap (p : Char → Bool) (lo : Nat) (hi : Option Nat) (next : Str → Option α)
    (cs : Str) : Option (Str × α) :=
  let run := (cs.takeWhile p).length
  let maxK := min run (hi.getD run)
  if maxK < lo then none
  else tryDown (fun k => (next (cs.drop k)).map (fun a => (cs.take k, a))) lo (maxK - lo)

/-- Models re.search: tries to match the pattern at every start position from
left to right (including the position after the last character) and returns
the captures of the leftmost match. -/
def searchAt (m : Str → Option α) : Str → Option α
  | [] => m []
  | c :: cs =>
    match m (c :: cs) with
    | some r => some r
    | none => searchAt m cs

/-! The planned-outage regex of _parse_date_formats, one definition per item,
written from the last item of the pattern to the first.  The pattern is
group 1: digits 1-2, spaces, group 2: word chars, spaces, group 3: digits 4,
spaces, literal r-dot, spaces, literal w, spaces, literal godz-dot, spaces,
group 4: digits 1-2, colon, group 5: digits 2, spaces, dash, spaces,
group 6: digits 1-2, colon, group 7: digits 2. -/

/-- End of a pattern: the empty remainder of the regex always matches. -/
def matchEnd (_cs : Str) : Option Unit := some ()

/-- Planned pattern, group 7 (end minute, exactly two digits). -/
def plG7 : Str → Option (Str × Unit) := matchClsCap isDigitCh 2 (some 2) matchEnd

/-- Planned pattern, the colon before group 7. -/
def plCo2 : Str → Option (Str × Unit) := matchLit ":".data plG7

/-- Planned pattern, group 6 (end hour, one or two digits). -/
def plG6 : Str → Option (Str × (Str × Unit)) := matchClsCap isDigitCh 1 (some 2) plCo2

/-- Planned pattern, the spaces after the dash. -/
def plSp8 : Str → Option (Str × (Str × Unit)) := matchCls isSpaceCh 1 none plG6

/-- Planned pattern, the literal dash between the two clock times. -/
def plDash : Str → Option (Str × (Str × Unit)) := matchLit "-".data plSp8

/-- Planned pattern, the spaces before the dash. -/
def plSp7 : Str → Option (Str × (Str × Unit)) := matchCls isSpaceCh 1 none plDash

/-- Planned pattern, group 5 (start minute, exactly two digits). -/
def plG5 : Str → Option (Str × (Str × (Str × Unit))) := matchClsCap isDigitCh 2 (some 2) plSp7

/-- Planned pattern, the colon before group 5. -/
def plCo1 : Str → Option (Str × (Str × (Str × Unit))) := matchLit ":".data plG5

/-- Planned pattern, group 4 (start hour, one or two digits). -/
def plG4 : Str → Option (Str × (Str × (Str × (Str × Unit)))) :=
  matchClsCap isDigitCh 1 (some 2) plCo1

/-- Planned pattern, the spaces after the godz literal. -/
def plSp6 : Str → Option (Str × (Str × (Str × (Str × Unit)))) :=
  matchCls isSpaceCh 1 none plG4

/-- Planned pattern, the literal godz followed by a dot. -/
def plGodz : Str → Option (Str × (Str × (Str × (Str × Unit)))) :=
  matchLit "godz.".data plSp6

/-- Planned pattern, the spaces before the godz literal. -/
def plSp5 : Str → Option (Str × (Str × (Str × (Str × Unit)))) :=
  matchCls isSpaceCh 1 none plGodz

/-- Planned pattern, the literal w. -/
def plW : Str → Option (Str × (Str × (Str × (Str × Unit)))) := matchLit "w".data plSp5

/-- Planned pattern, the spaces before the literal w. -/
def plSp4 : Str → Option (Str × (Str × (Str × (Str × Unit)))) :=
  matchCls isSpaceCh 1 none plW

/-- Planned pattern, the literal r followed by a dot. -/
def plR : Str → Option (Str × (Str × (Str × (Str × Unit)))) := matchLit "r.".data plSp4

/-- Planned pattern, the spaces after the year. -/
def plSp3 : Str → Option (Str × (Str × (Str × (Str × Unit)))) :=
  matchCls isSpaceCh 1 none plR

/-- Planned pattern, group 3 (year, exactly four digits). -/
def plG3 : Str → Option (Str × (Str × (Str × (Str × (Str × Unit))))) :=
  matchClsCap isDigitCh 4 (some 4) plSp3

/-- Planned pattern, the spaces after the month name. -/
def plSp2 : Str → Option (Str × (Str × (Str × (Str × (Str × Unit))))) :=
  matchCls isSpaceCh 1 none plG3

/-- Planned pattern, group 2 (month name, one or more word characters). -/
def plG2 : Str → Option (Str × (Str × (Str × (Str × (Str × (Str × Unit)))))) :=
  matchClsCap isWordCh 1 none plSp2

/-- Planned pattern, the spaces after the day. -/
def plSp1 : Str → Option (Str × (Str × (Str × (Str × (Str × (Str × Unit)))))) :=
  matchCls isSpaceCh 1 none plG2

/-- Planned pattern, group 1 (day of month, one or two digits). -/
def plG1 : Str → Option (Str × (Str × (Str × (Str × (Str × (Str × (Str × Unit))))))) :=
  matchClsCap isDigitCh 1 (some 2) plSp1

/-- Captures of the planned-window pattern:
(day, (month name, (year, (start hour, (start minute, (end hour, (end minute, unit))))))). -/
abbrev PlannedCaps := Str × (Str × (Str × (Str × (Str × (Str × (Str × Unit))))))

/-- Models re.search of the planned-window pattern over the date text. -/
def searchPlanned : Str → Option PlannedCaps := searchAt plG1

/-! The unplanned-outage regex, one definition per item, last item first.
The pattern is group 1: digits 1-2, spaces, group 2: word chars, spaces,
group 3: digits 4, spaces, literal r-dot, spaces, literal do, spaces,
literal godziny, spaces, group 4: digits 1-2, colon, group 5: digits 2. -/

/-- Unplanned pattern, group 5 (minute, exactly two digits). -/
def unG5 : Str → Option (Str × Unit) := matchClsCap isDigitCh 2 (some 2) matchEnd

/-- Unplanned pattern, the colon before group 5. -/
def unCo : Str → Option (Str × Unit) := matchLit ":".data unG5

/-- Unplanned pattern, group 4 (hour, one or two digits). -/
def unG4 : Str → Option (Str × (Str × Unit)) := matchClsCap isDigitCh 1 (some 2) unCo

/-- Unplanned pattern, the spaces after the godziny literal. -/
def unSp6 : Str → Option (Str × (Str × Unit)) := matchCls isSpaceCh 1 none unG4

/-- Unplanned pattern, the literal godziny. -/
def unGodziny : Str → Option (Str × (Str × Unit)) := matchLit "godziny".data unSp6

/-- Unplanned pattern, the spaces before the godziny literal. -/
def unSp5 : Str → Option (Str × (Str × Unit)) := matchCls isSpaceCh 1 none unGodziny

/-- Unplanned pattern, the literal do. -/
def unDo : Str → Option (Str × (Str × Unit)) := matchLit "do".data unSp5

/-- Unplanned pattern, the spaces before the literal do. -/
def unSp4 : Str → Option (Str × (Str × Unit)) := matchCls isSpaceCh 1 none unDo

/-- Unplanned pattern, the literal r followed by a dot. -/
def unR : Str → Option (Str × (Str × Unit)) := matchLit "r.".data unSp4

/-- Unplanned pattern, the spaces after the year. -/
def unSp3 : Str → Option (Str × (Str × Unit)) := matchCls isSpaceCh 1 none unR

/-- Unplanned pattern, group 3 (year, exactly four digits). -/
def unG3 : Str → Option (Str × (Str × (Str × Unit))) := matchClsCap isDigitCh 4 (some 4) unSp3

/-- Unplanned pattern, the spaces after the month name. -/
def unSp2 : Str → Option (Str × (Str × (Str × Unit))) := matchCls isSpaceCh 1 none unG3

/-- Unplanned pattern, group 2 (month name, one or more word characters). -/
def unG2 : Str → Option (Str × (Str × (Str × (Str × Unit)))) :=
  matchClsCap isWordCh 1 none unSp2

/-- Unplanned pattern, the spaces after the day. -/
def unSp1 : Str → Option (Str × (Str × (Str × (Str × Unit)))) :=
  matchCls isSpaceCh 1 none unG2

/-- Unplanned pattern, group 1 (day of month, one or two digits). -/
def unG1 : Str → Option (Str × (Str × (Str × (Str × (Str × Unit))))) :=
  matchClsCap isDigitCh 1 (some 2) unSp1

/-- Captures of the unplanned-deadline pattern:
(day, (month name, (year, (hour, (minute, unit))))). -/
abbrev UnplannedCaps := Str × (Str × (Str × (Str × (Str × Unit))))

/-- Models re.search of the unplanned-deadline pattern over the date text. -/
def searchUnplanned : Str → Option UnplannedCaps := searchAt unG1

/-- Models str.lower of Python for the characters that can occur in month-name
captures: ASCII letters and the Polish uppercase letters. -/
def pyLower (c : Char) : Char :=
  if c == 'Ą' then 'ą' else if c == 'Ć' then 'ć' else if c == 'Ę' then 'ę'
  else if c == 'Ł' then 'ł' else if c == 'Ń' then 'ń' else if c == 'Ó' then 'ó'
  else if c == 'Ś' then 'ś' else if c == 'Ź' then 'ź' else if c == 'Ż' then 'ż'
  else c.toLower

/-- Lowercases a string character by character, as str.lower does. -/
def lowerStr (s : Str) : Str := s.map pyLower

/-- The MONTH_MAP dictionary of EneaOutagesClient: the twelve Polish
genitive-case month names mapped to month numbers 1 through 12. -/
def MONTH_MAP : List (Str × Nat) :=
  [("stycznia".data, 1), ("lutego".data, 2), ("marca".data, 3), ("kwietnia".data, 4),
   ("maja".data, 5), ("czerwca".data, 6), ("lipca".data, 7), ("sierpnia".data, 8),
   ("września".data, 9), ("października".data, 10), ("listopada".data, 11),
   ("grudnia".data, 12)]

/-- Models MONTH_MAP.get on an already-lowercased month name. -/
def monthLookup (s : Str) : Option Nat :=
  (MONTH_MAP.find? (fun e => e.1 == s)).map (fun e => e.2)

/-- Numeric value of an ASCII digit character. -/
def digitVal (c : Char) : Nat := c.toNat - 48

/-- Models int applied to a captured all-digit string. -/
def digitsToNat (s : Str) : Nat := s.foldl (fun a c => a * 10 + digitVal c) 0

/-- Models a naive Python datetime value: year, month, day, hour, minute
(the code never supplies seconds or microseconds, which stay zero). -/
structure PyDatetime where
  year : Nat
  month : Nat
  day : Nat
  hour : Nat
  minute : Nat
deriving DecidableEq, Repr

/-- Gregorian leap-year test, as datetime uses. -/
def isLeapYear (y : Nat) : Bool := y % 4 == 0 && (y % 100 != 0 || y % 400 == 0)

/-- Number of days of a month in a given year, as datetime uses. -/
def daysInMonth (y m : Nat) : Nat :=
  if m == 2 then (if isLeapYear y then 29 else 28)
  else if m == 4 || m == 6 || m == 9 || m == 11 then 30
  else 31

/-- Models the datetime constructor: some value when every field is in range
(year 1 to 9999, month 1 to 12, day 1 to the month length, hour 0 to 23,
minute 0 to 59), none when the constructor would raise a value error. -/
def mkDatetime (y m d hh mi : Nat) : Option PyDatetime :=
  if 1 ≤ y ∧ y ≤ 9999 ∧ 1 ≤ m ∧ m ≤ 12 ∧ 1 ≤ d ∧ d ≤ daysInMonth y m ∧ hh ≤ 23 ∧ mi ≤ 59
  then some ⟨y, m, d, hh, mi⟩ else none

/-- Python datetime comparison: lexicographic on the date and time fields. -/
def dtLt (a b : PyDatetime) : Bool :=
  if a.year < b.year then true else if b.year < a.year then false
  else if a.month < b.month then true else if b.month < a.month then false
  else if a.day < b.day then true else if b.day < a.day then false
  else if a.hour < b.hour then true else if b.hour < a.hour then false
  else decide (a.minute < b.minute)

/-- The distinct value-error outcomes of _parse_date_formats: the unknown
month-name error, the could-not-parse-date-information format error, and the
value error raised by the datetime constructor on an out-of-range field. -/
inductive DateError where
  | unknownMonth : Str → DateError
  | couldNotParse : Str → DateError
  | badDatetime : DateError
deriving DecidableEq, Repr

/-- Models EneaOutagesClient._parse_date_formats.  The planned-window pattern
is tried first; on a match the month name is lowercased and looked up, an
unknown name raises the unknown-month error, and the two timestamps are built
from the captured digits (an out-of-range field raises the datetime value
error).  Otherwise the unplanned-deadline pattern is tried the same way with
a null start time.  If neither pattern matches, the format error is raised. -/
def parseDateFormats (s : Str) : Except DateError (Option PyDatetime × PyDatetime) :=
  match searchPlanned s with
  | some (d, mn, y, sh, sm, eh, em, _) =>
    match monthLookup (lowerStr mn) with
    | none => .error (.unknownMonth mn)
    | some m =>
      match mkDatetime (digitsToNat y) m (digitsToNat d) (digitsToNat sh) (digitsToNat sm),
            mkDatetime (digitsToNat y) m (digitsToNat d) (digitsToNat eh) (digitsToNat em) with
      | some st, some et => .ok (some st, et)
      | _, _ => .error .badDatetime
  | none =>
    match searchUnplanned s with
    | some (d, mn, y, hh, mi, _) =>
      match monthLookup (lowerStr mn) with
      | none => .error (.unknownMonth mn)
      | some m =>
        match mkDatetime (digitsToNat y) m (digitsToNat d) (digitsToNat hh) (digitsToNat mi) with
        | some et => .ok (none, et)
        | none => .error .badDatetime
    | none => .error (.couldNotParse s)

/-- Models the Outage dataclass of models.py: region, description, and the
two optional timestamps. -/
structure Outage where
  region : Str
  description : Str
  start_time : Option PyDatetime
  end_time : Option PyDatetime
deriving DecidableEq, Repr

/-- Models one outage HTML block as _parse_outage_block sees it: the stripped
text of each of the three sub-elements (the h4 title, the description
paragraph, and the bold subtext paragraph with the date), or none when
block.find returns no such sub-element. -/
structure Block where
  regionTag : Option Str
  descriptionTag : Option Str
  dateInfoTag : Option Str
deriving DecidableEq, Repr

/-- Models EneaOutagesClient._parse_outage_block: missing sub-elements fall
back to the sentinel strings (unknown area, no description, empty date text),
and the date text is delegated to _parse_date_formats, whose value error
propagates. -/
def parseOutageBlock (b : Block) : Except DateError Outage :=
  let region := b.regionTag.getD "Nieznany obszar".data
  let description := b.descriptionTag.getD "Brak opisu".data
  let dateInfoStr := b.dateInfoTag.getD []
  match parseDateFormats dateInfoStr with
  | .ok (st, et) => .ok ⟨region, description, st, some et⟩
  | .error e => .error e

/-- Models the result of the BeautifulSoup pass over the fetched document:
the list of div blocks with the outage-info class in document order, and the
option values (none when the value attribute is absent) of the select element
with the oddzial id, when that element exists. -/
structure Soup where
  outageBlocks : List Block
  regionSelect : Option (List (Option Str))

/-- Models an httpx response: status code and body text. -/
structure HttpResponse where
  status : Nat
  text : Str

/-- Models the errors of the httpx collaborator: an HTTP status error raised
by raise_for_status, or a transport error raised by the request itself. -/
inductive HttpError where
  | statusError : Nat → HttpError
  | transportError : HttpError
deriving DecidableEq, Repr

/-- Models response.raise_for_status: the body text on a 2xx success status,
an HTTP status error otherwise. -/
def raiseForStatus (r : HttpResponse) : Except HttpError Str :=
  if 200 ≤ r.status ∧ r.status < 300 then .ok r.text else .error (.statusError r.status)

/-- Models EneaOutagesClient._fetch_raw_html: the network call either fails
with a transport error, which propagates, or yields a response that is passed
through raise_for_status. -/
def fetchRawHtml (net : Except HttpError HttpResponse) : Except HttpError Str :=
  match net with
  | .error e => .error e
  | .ok r => raiseForStatus r

/-- Models the per-block try-except of the region listing: a value error or
attribute error from _parse_outage_block is logged and the block skipped. -/
def parseBlockOpt (b : Block) : Option Outage := (parseOutageBlock b).toOption

/-- Models EneaOutagesClient.get_outages_for_region: fetch, extract the
outage blocks, parse each block, and skip (after logging) any block whose
parsing raises a value error or attribute error.  The soup argument stands
for the external BeautifulSoup HTML parser and the net argument for the
outcome of the network call. -/
def getOutagesForRegion (soup : Str → Soup) (net : Except HttpError HttpResponse) :
    Except HttpError (List Outage) :=
  match fetchRawHtml net with
  | .error e => .error e
  | .ok html => .ok ((soup html).outageBlocks.filterMap parseBlockOpt)

/-- Substring containment of Python (the in operator on str). -/
def containsSub (needle : Str) : Str → Bool
  | [] => needle.isEmpty
  | c :: rest => needle.isPrefixOf (c :: rest) || containsSub needle rest

/-- The filter predicate of get_outages_for_address: the lowercased address
occurs in the lowercased description. -/
def addressMatches (address : Str) (o : Outage) : Bool :=
  containsSub (lowerStr address) (lowerStr o.description)

/-- Models EneaOutagesClient.get_outages_for_address: the region listing
filtered down to the records whose description contains the address
case-insensitively. -/
def getOutagesForAddress (soup : Str → Soup) (net : Except HttpError HttpResponse)
    (address : Str) : Except HttpError (List Outage) :=
  match getOutagesForRegion soup net with
  | .error e => .error e
  | .ok outs => .ok (outs.filter (addressMatches address))

/-- Keeps an option value when the value attribute is present and non-empty,
as the comprehension of get_available_regions does. -/
def keepOptionValue (v : Option Str) : Option Str :=
  match v with
  | some s => if s.isEmpty then none else some s
  | none => none

/-- Models EneaOutagesClient.get_available_regions: fetch one fixed page,
return an empty list when the select element is absent, and otherwise the
non-empty value attributes of its options in document order. -/
def getAvailableRegions (soup : Str → Soup) (net : Except HttpError HttpResponse) :
    Except HttpError (List Str) :=
  match fetchRawHtml net with
  | .error e => .error e
  | .ok html =>
    match (soup html).regionSelect with
    | none => .ok []
    | some opts => .ok (opts.filterMap keepOptionValue)

/-! The AsyncEneaOutagesClient methods, transcribed separately from their own
bodies.  Awaiting has no observable effect in the embedding, so each async
method is a pure function of the same shape as its synchronous counterpart;
the equivalence of the two transcriptions is proved below, not assumed. -/

/-- Models AsyncEneaOutagesClient._fetch_raw_html. -/
def asyncFetchRawHtml (net : Except HttpError HttpResponse) : Except HttpError Str :=
  match net with
  | .error e => .error e
  | .ok r => raiseForStatus r

/-- Models AsyncEneaOutagesClient.get_outages_for_region. -/
def asyncGetOutagesForRegion (soup : Str → Soup) (net : Except HttpError HttpResponse) :
    Except HttpError (List Outage) :=
  match asyncFetchRawHtml net with
  | .error e => .error e
  | .ok html => .ok ((soup html).outageBlocks.filterMap parseBlockOpt)

/-- Models AsyncEneaOutagesClient.get_outages_for_address. -/
def asyncGetOutagesForAddress (soup : Str → Soup) (net : Except HttpError HttpResponse)
    (address : Str) : Except HttpError (List Outage) :=
  match asyncGetOutagesForRegion soup net with
  | .error e => .error e
  | .ok outs => .ok (outs.filter (addressMatches address))

/-- Models AsyncEneaOutagesClient.get_available_regions. -/
def asyncGetAvailableRegions (soup : Str → Soup) (net : Except HttpError HttpResponse) :
    Except HttpError (List Str) :=
  match asyncFetchRawHtml net with
  | .error e => .error e
  | .ok html =>
    match (soup html).regionSelect with
    | none => .ok []
    | some opts => .ok (opts.filterMap keepOptionValue)

/-! Helper lemmas shared by several claims. -/

/-- mkDatetime only ever returns the record built from its own arguments. -/
theorem mkDatetime_some {y m d hh mi : Nat} {t : PyDatetime}
    (h : mkDatetime y m d hh mi = some t) : t = ⟨y, m, d, hh, mi⟩ := by
  unfold mkDatetime at h
  split at h
  · exact (Option.some.inj h).symm
  · exact absurd h (by simp)

/-- On equal dates, the datetime order is the lexicographic order of the
clock fields. -/
theorem dtLt_same_date (y m d h1 m1 h2 m2 : Nat) :
    dtLt ⟨y, m, d, h1, m1⟩ ⟨y, m, d, h2, m2⟩ = true ↔
      (h1 < h2 ∨ (h1 = h2 ∧ m1 < m2)) := by
  unfold dtLt
  simp only [Nat.lt_irrefl, if_false]
  split_ifs with hb hc
  · simp; omega
  · simp; omega
  · simp; omega

/-- The length of a filterMap result never exceeds the input length. -/
theorem filterMap_length_le (f : α → Option β) (l : List α) :
    (l.filterMap f).length ≤ l.length := by
  induction l with
  | nil => simp
  | cons a t ih =>
    cases h : f a with
    | none => simp only [List.filterMap_cons, h, List.length_cons]; omega
    | some b => simp only [List.filterMap_cons, h, List.length_cons]; omega

/-- The length of a filterMap result equals the number of inputs on which
the function succeeds. -/
theorem filterMap_length_eq_countSome (f : α → Option β) (l : List α) :
    (l.filterMap f).length = (l.filter (fun a => (f a).isSome)).length := by
  induction l with
  | nil => rfl
  | cons a t ih =>
    cases h : f a with
    | none => simpa [List.filterMap_cons, List.filter_cons, h] using ih
    | some b => simpa [List.filterMap_cons, List.filter_cons, h] using ih

/-! Claims. -/

/-- C1 counterexample: the text matching the planned-window pattern with the
clock times given in reversed order is normalized to a start time strictly
after the end time, and the block built from it yields an Outage with a
non-null start_time that does not precede end_time, so the claimed invariant
fails. -/
theorem claim_C1_counterexample :
    parseDateFormats "8 grudnia 2025 r. w godz. 16:00 - 08:00".data
      = .ok (some ⟨2025, 12, 8, 16, 0⟩, ⟨2025, 12, 8, 8, 0⟩)
    ∧ dtLt ⟨2025, 12, 8, 16, 0⟩ ⟨2025, 12, 8, 8, 0⟩ = false
    ∧ parseOutageBlock ⟨some "Obszar".data, some "Opis".data,
        some "8 grudnia 2025 r. w godz. 16:00 - 08:00".data⟩
      = .ok ⟨"Obszar".data, "Opis".data, some ⟨2025, 12, 8, 16, 0⟩,
          some ⟨2025, 12, 8, 8, 0⟩⟩ := by
  exact ⟨rfl, rfl, rfl⟩

/-- C1 (amended): for every text on which the planned-window search succeeds
with a recognized month name and with field values accepted by the datetime
constructor, the normalizer returns a (start_time, end_time) pair on the same
calendar date whose day, month, year, hour and minute fields equal the
matched digits; start_time precedes end_time exactly when the matched start
clock time precedes the matched end clock time, which the code does not
enforce. -/
theorem claim_C1 (s d mn y sh sm eh em : Str) (m : Nat) (st et : PyDatetime)
    (hsearch : searchPlanned s = some (d, mn, y, sh, sm, eh, em, ()))
    (hmonth : monthLookup (lowerStr mn) = some m)
    (hst : mkDatetime (digitsToNat y) m (digitsToNat d) (digitsToNat sh)
      (digitsToNat sm) = some st)
    (het : mkDatetime (digitsToNat y) m (digitsToNat d) (digitsToNat eh)
      (digitsToNat em) = some et) :
    parseDateFormats s = .ok (some st, et)
    ∧ st = ⟨digitsToNat y, m, digitsToNat d, digitsToNat sh, digitsToNat sm⟩
    ∧ et = ⟨digitsToNat y, m, digitsToNat d, digitsToNat eh, digitsToNat em⟩
    ∧ st.year = et.year ∧ st.month = et.month ∧ st.day = et.day
    ∧ (dtLt st et = true ↔
        (digitsToNat sh < digitsToNat eh
         ∨ (digitsToNat sh = digitsToNat eh ∧ digitsToNat sm < digitsToNat em))) := by
  have hstv := mkDatetime_some hst
  have hetv := mkDatetime_some het
  subst hstv
  subst hetv
  refine ⟨?_, rfl, rfl, rfl, rfl, rfl, dtLt_same_date _ _ _ _ _ _ _⟩
  simp only [parseDateFormats, hsearch, hmonth, hst, het]

/-- C1 witness: the amended theorem applied to the sample planned date text,
where the start clock time does precede the end clock time. -/
theorem claim_C1_witness :
    parseDateFormats "8 grudnia 2025 r. w godz. 08:00 - 16:00".data
      = .ok (some ⟨2025, 12, 8, 8, 0⟩, ⟨2025, 12, 8, 16, 0⟩)
    ∧ dtLt ⟨2025, 12, 8, 8, 0⟩ ⟨2025, 12, 8, 16, 0⟩ = true := by
  have h := claim_C1 "8 grudnia 2025 r. w godz. 08:00 - 16:00".data
    "8".data "grudnia".data "2025".data "08".data "00".data "16".data "00".data 12
    ⟨2025, 12, 8, 8, 0⟩ ⟨2025, 12, 8, 16, 0⟩ rfl rfl rfl rfl
  exact ⟨h.1, h.2.2.2.2.2.2.mpr (by decide)⟩

/-- C2: for every text on which the planned-window search fails and the
unplanned-deadline search succeeds with a recognized month name and with
field values accepted by the datetime constructor, the normalizer returns a
null start time and the end timestamp built from the matched day, month,
year, hour and minute. -/
theorem claim_C2 (s d mn y hh mi : Str) (m : Nat) (et : PyDatetime)
    (hpl : searchPlanned s = none)
    (hsearch : searchUnplanned s = some (d, mn, y, hh, mi, ()))
    (hmonth : monthLookup (lowerStr mn) = some m)
    (het : mkDatetime (digitsToNat y) m (digitsToNat d) (digitsToNat hh)
      (digitsToNat mi) = some et) :
    parseDateFormats s = .ok (none, et)
    ∧ et = ⟨digitsToNat y, m, digitsToNat d, digitsToNat hh, digitsToNat mi⟩ := by
  have hetv := mkDatetime_some het
  subst hetv
  refine ⟨?_, rfl⟩
  simp only [parseDateFormats, hpl, hsearch, hmonth, het]

/-- C2 witness: the theorem applied to the sample unplanned date text. -/
theorem claim_C2_witness :
    parseDateFormats "29 listopada 2025 r.  do godziny 14:30".data
      = .ok (none, ⟨2025, 11, 29, 14, 30⟩) := by
  have h := claim_C2 "29 listopada 2025 r.  do godziny 14:30".data
    "29".data "listopada".data "2025".data "14".data "30".data 11
    ⟨2025, 11, 29, 14, 30⟩ rfl rfl rfl rfl
  exact h.1

/-- C3: the normalizer fails as specified.  If neither pattern matches, it
raises the could-not-parse format error carrying the input text.  If the
planned-window pattern matches (tried first, with no condition on the
unplanned pattern) but the lowercased month capture is not in MONTH_MAP, it
raises the unknown-month error carrying the capture; likewise for the
unplanned-deadline pattern when the planned one fails.  The two error kinds
are distinct, and MONTH_MAP is exactly the twelve-entry Polish genitive
table from stycznia as month 1 to grudnia as month 12. -/
theorem claim_C3 :
    (∀ s : Str, searchPlanned s = none → searchUnplanned s = none →
      parseDateFormats s = .error (.couldNotParse s))
    ∧ (∀ s : Str, ∀ g : PlannedCaps, searchPlanned s = some g →
        monthLookup (lowerStr g.2.1) = none →
        parseDateFormats s = .error (.unknownMonth g.2.1))
    ∧ (∀ s : Str, ∀ g : UnplannedCaps, searchPlanned s = none →
        searchUnplanned s = some g → monthLookup (lowerStr g.2.1) = none →
        parseDateFormats s = .error (.unknownMonth g.2.1))
    ∧ (∀ mn t : Str, DateError.unknownMonth mn ≠ DateError.couldNotParse t)
    ∧ monthLookup "stycznia".data = some 1
    ∧ monthLookup "grudnia".data = some 12
    ∧ MONTH_MAP.length = 12 := by
  refine ⟨?_, ?_, ?_, ?_, rfl, rfl, rfl⟩
  · intro s h1 h2
    simp only [parseDateFormats, h1, h2]
  · intro s g hs hm
    obtain ⟨d, mn, y, sh, sm, eh, em, u⟩ := g
    simp only [parseDateFormats, hs, hm]
  · intro s g h1 hs hm
    obtain ⟨d, mn, y, hh, mi, u⟩ := g
    simp only [parseDateFormats, h1, hs, hm]
  · intro mn t h
    exact DateError.noConfusion h

/-- C3 witness: the three error cases at concrete inputs. -/
theorem claim_C3_witness :
    parseDateFormats "Invalid date string".data
      = .error (.couldNotParse "Invalid date string".data)
    ∧ parseDateFormats "8 blah 2025 r. w godz. 08:00 - 16:00".data
      = .error (.unknownMonth "blah".data)
    ∧ parseDateFormats "19 blah 2025 r. do godziny 12:30".data
      = .error (.unknownMonth "blah".data) := by
  refine ⟨claim_C3.1 _ rfl rfl, ?_, ?_⟩
  · exact claim_C3.2.1 _ ("8".data, "blah".data, "2025".data, "08".data,
      "00".data, "16".data, "00".data, ()) rfl rfl
  · exact claim_C3.2.2.1 _ ("19".data, "blah".data, "2025".data, "12".data,
      "30".data, ()) rfl rfl rfl

/-- C4: when the fetch succeeds, the region listing returns exactly the
records of the blocks that parse, in document order, with no substitute for a
malformed block; its length is at most the block count and equals the number
of well-formed blocks, and a document with zero blocks yields the empty list
rather than an error. -/
theorem claim_C4 (soup : Str → Soup) (net : Except HttpError HttpResponse) (html : Str)
    (hfetch : fetchRawHtml net = .ok html) :
    getOutagesForRegion soup net
      = .ok ((soup html).outageBlocks.filterMap parseBlockOpt)
    ∧ ((soup html).outageBlocks.filterMap parseBlockOpt).length
        ≤ (soup html).outageBlocks.length
    ∧ ((soup html).outageBlocks.filterMap parseBlockOpt).length
        = ((soup html).outageBlocks.filter (fun b => (parseBlockOpt b).isSome)).length
    ∧ ((soup html).outageBlocks = []
        → (soup html).outageBlocks.filterMap parseBlockOpt = []) := by
  refine ⟨?_, filterMap_length_le _ _, filterMap_length_eq_countSome _ _, ?_⟩
  · simp only [getOutagesForRegion, hfetch]
  · intro h
    simp [h]

/-- C4 witness: a document with one well-formed and one malformed block
yields exactly the one record parsed from the well-formed block. -/
theorem claim_C4_witness :
    getOutagesForRegion
      (fun _ => ⟨[⟨some "A".data, some "D".data,
                   some "29 listopada 2025 r. do godziny 14:30".data⟩,
                  ⟨some "B".data, some "E".data, some "zepsuty tekst".data⟩], none⟩)
      (.ok ⟨200, "strona".data⟩)
    = .ok [⟨"A".data, "D".data, none, some ⟨2025, 11, 29, 14, 30⟩⟩] := by
  have h := claim_C4
    (fun _ => ⟨[⟨some "A".data, some "D".data,
                 some "29 listopada 2025 r. do godziny 14:30".data⟩,
                ⟨some "B".data, some "E".data, some "zepsuty tekst".data⟩], none⟩)
    (.ok ⟨200, "strona".data⟩) "strona".data rfl
  exact h.1.trans (by rfl)

/-- C5: address filtering returns exactly the records of the region listing
whose description contains the address as a case-insensitive substring; the
result is a sublist of the listing (relative order preserved) and the filter
predicate ignores the region field. -/
theorem claim_C5 (soup : Str → Soup) (net : Except HttpError HttpResponse)
    (address : Str) (outs : List Outage)
    (h : getOutagesForRegion soup net = .ok outs) :
    getOutagesForAddress soup net address = .ok (outs.filter (addressMatches address))
    ∧ (∀ o : Outage, o ∈ outs.filter (addressMatches address) ↔
        o ∈ outs ∧ containsSub (lowerStr address) (lowerStr o.description) = true)
    ∧ (outs.filter (addressMatches address)).Sublist outs
    ∧ (∀ o : Outage, ∀ r : Str,
        addressMatches address { o with region := r } = addressMatches address o) := by
  refine ⟨?_, ?_, List.filter_sublist _, fun o r => rfl⟩
  · simp only [getOutagesForAddress, h]
  · intro o
    simp [List.mem_filter, addressMatches]

/-- C5 witness: the spec example, with the mixed-case address matching the
description case-insensitively and a different address matching nothing; the
region field is irrelevant to the match. -/
theorem claim_C5_witness :
    getOutagesForAddress
      (fun _ => ⟨[⟨some "Test Unplanned Area".data,
                   some "Unplanned outage description.".data,
                   some "29 listopada 2025 r. do godziny 14:30".data⟩], none⟩)
      (.ok ⟨200, "strona".data⟩) "unplanned outage".data
    = .ok [⟨"Test Unplanned Area".data, "Unplanned outage description.".data,
        none, some ⟨2025, 11, 29, 14, 30⟩⟩]
    ∧ getOutagesForAddress
      (fun _ => ⟨[⟨some "Test Unplanned Area".data,
                   some "Unplanned outage description.".data,
                   some "29 listopada 2025 r. do godziny 14:30".data⟩], none⟩)
      (.ok ⟨200, "strona".data⟩) "Nonexistent Street".data
    = .ok [] := by
  have h1 := claim_C5
    (fun _ => ⟨[⟨some "Test Unplanned Area".data,
                 some "Unplanned outage description.".data,
                 some "29 listopada 2025 r. do godziny 14:30".data⟩], none⟩)
    (.ok ⟨200, "strona".data⟩) "unplanned outage".data
    [⟨"Test Unplanned Area".data, "Unplanned outage description.".data,
      none, some ⟨2025, 11, 29, 14, 30⟩⟩] rfl
  have h2 := claim_C5
    (fun _ => ⟨[⟨some "Test Unplanned Area".data,
                 some "Unplanned outage description.".data,
                 some "29 listopada 2025 r. do godziny 14:30".data⟩], none⟩)
    (.ok ⟨200, "strona".data⟩) "Nonexistent Street".data
    [⟨"Test Unplanned Area".data, "Unplanned outage description.".data,
      none, some ⟨2025, 11, 29, 14, 30⟩⟩] rfl
  exact ⟨h1.1.trans (by rfl), h2.1.trans (by rfl)⟩

/-- C6: a non-2xx response status makes every listing operation fail with the
status error carrying that status code (never an empty-list success), and a
transport error from the network call is propagated unmodified by every
listing operation. -/
theorem claim_C6 (soup : Str → Soup) (resp : HttpResponse) (e : HttpError)
    (hbad : ¬(200 ≤ resp.status ∧ resp.status < 300)) :
    getOutagesForRegion soup (.ok resp) = .error (.statusError resp.status)
    ∧ (∀ address : Str, getOutagesForAddress soup (.ok resp) address
        = .error (.statusError resp.status))
    ∧ getAvailableRegions soup (.ok resp) = .error (.statusError resp.status)
    ∧ (∀ outs : List Outage, getOutagesForRegion soup (.ok resp) ≠ .ok outs)
    ∧ getOutagesForRegion soup (.error e) = .error e
    ∧ (∀ address : Str, getOutagesForAddress soup (.error e) address = .error e)
    ∧ getAvailableRegions soup (.error e) = .error e := by
  have hfetch : fetchRawHtml (.ok resp) = .error (.statusError resp.status) := by
    simp only [fetchRawHtml, raiseForStatus, if_neg hbad]
  refine ⟨?_, ?_, ?_, ?_, rfl, fun address => rfl, rfl⟩
  · simp only [getOutagesForRegion, hfetch]
  · intro address
    simp only [getOutagesForAddress, getOutagesForRegion, hfetch]
  · simp only [getAvailableRegions, hfetch]
  · intro outs hcontr
    rw [show getOutagesForRegion soup (.ok resp) = .error (.statusError resp.status) by
      simp only [getOutagesForRegion, hfetch]] at hcontr
    exact Except.noConfusion hcontr

/-- C6 witness: the theorem applied to an HTTP 500 response and to a
transport error. -/
theorem claim_C6_witness :
    getOutagesForRegion (fun _ => ⟨[], none⟩) (.ok ⟨500, [] ⟩)
      = .error (.statusError 500)
    ∧ getAvailableRegions (fun _ => ⟨[], none⟩) (.ok ⟨500, [] ⟩)
      = .error (.statusError 500)
    ∧ getOutagesForRegion (fun _ => ⟨[], none⟩) (.error .transportError)
      = .error .transportError := by
  have h := claim_C6 (fun _ => ⟨[], none⟩) ⟨500, [] ⟩ .transportError (by decide)
  exact ⟨h.1, h.2.2.1, h.2.2.2.2.1⟩

/-- C7: the asynchronous client is observably equivalent to the blocking
client: on every fetch outcome and every document, the async fetch and the
three async listing operations return exactly what the corresponding
synchronous operations return, errors included. -/
theorem claim_C7 (soup : Str → Soup) (net : Except HttpError HttpResponse)
    (address : Str) :
    asyncFetchRawHtml net = fetchRawHtml net
    ∧ asyncGetOutagesForRegion soup net = getOutagesForRegion soup net
    ∧ asyncGetOutagesForAddress soup net address = getOutagesForAddress soup net address
    ∧ asyncGetAvailableRegions soup net = getAvailableRegions soup net := by
  exact ⟨rfl, rfl, rfl, rfl⟩

/-- keepOptionValue keeps exactly the present, non-empty value attributes. -/
theorem keepOptionValue_eq_some (v : Option Str) (s : Str) :
    keepOptionValue v = some s ↔ v = some s ∧ s ≠ [] := by
  cases v with
  | none => simp [keepOptionValue]
  | some t =>
    cases t with
    | nil => simp [keepOptionValue]
    | cons c cs =>
      simp only [keepOptionValue, List.isEmpty_cons, Bool.false_eq_true, if_false,
        Option.some.injEq]
      constructor
      · intro h
        subst h
        simp
      · exact fun h => h.1

/-- C8: when the fetch succeeds, region discovery returns the empty list if
the document has no region selector element, and otherwise exactly the
non-empty, present value attributes of the option entries in document order:
a string is in the result exactly when it occurs as a non-empty option value. -/
theorem claim_C8 (soup : Str → Soup) (net : Except HttpError HttpResponse) (html : Str)
    (hfetch : fetchRawHtml net = .ok html) :
    ((soup html).regionSelect = none → getAvailableRegions soup net = .ok [])
    ∧ (∀ opts : List (Option Str), (soup html).regionSelect = some opts →
        getAvailableRegions soup net = .ok (opts.filterMap keepOptionValue)
        ∧ (∀ s : Str, s ∈ opts.filterMap keepOptionValue ↔ some s ∈ opts ∧ s ≠ [])) := by
  constructor
  · intro hsel
    simp only [getAvailableRegions, hfetch, hsel]
  · intro opts hsel
    constructor
    · simp only [getAvailableRegions, hfetch, hsel]
    · intro s
      rw [List.mem_filterMap]
      constructor
      · rintro ⟨v, hv, hkeep⟩
        obtain ⟨h1, h2⟩ := (keepOptionValue_eq_some v s).mp hkeep
        exact ⟨h1 ▸ hv, h2⟩
      · rintro ⟨hv, hne⟩
        exact ⟨some s, hv, (keepOptionValue_eq_some _ s).mpr ⟨rfl, hne⟩⟩

/-- C8 witness: the spec example option list with an empty first value yields
the three non-empty region names, and a document with no selector yields the
empty list. -/
theorem claim_C8_witness :
    getAvailableRegions
      (fun _ => ⟨[], some [some "".data, some "Zielona Góra".data,
        some "Poznań".data, some "Bydgoszcz".data]⟩) (.ok ⟨200, "strona".data⟩)
      = .ok ["Zielona Góra".data, "Poznań".data, "Bydgoszcz".data]
    ∧ getAvailableRegions (fun _ => ⟨[], none⟩) (.ok ⟨200, "strona".data⟩) = .ok [] := by
  have h1 := claim_C8 (fun _ => ⟨[], some [some "".data, some "Zielona Góra".data,
    some "Poznań".data, some "Bydgoszcz".data]⟩) (.ok ⟨200, "strona".data⟩)
    "strona".data rfl
  have h2 := claim_C8 (fun _ => ⟨[], none⟩) (.ok ⟨200, "strona".data⟩) "strona".data rfl
  exact ⟨((h1.2 _ rfl).1).trans (by rfl), h2.1 rfl⟩

/-- C9: for every block whose date text parses, block parsing succeeds with
the fallback sentinels: a missing heading yields the unknown-area sentinel, a
missing description yields the no-description sentinel, and a missing
date element defaults the date text to the empty string. -/
theorem claim_C9 (b : Block) (st : Option PyDatetime) (et : PyDatetime)
    (h : parseDateFormats (b.dateInfoTag.getD []) = .ok (st, et)) :
    parseOutageBlock b = .ok ⟨b.regionTag.getD "Nieznany obszar".data,
      b.descriptionTag.getD "Brak opisu".data, st, some et⟩
    ∧ (b.regionTag = none →
        b.regionTag.getD "Nieznany obszar".data = "Nieznany obszar".data)
    ∧ (b.descriptionTag = none →
        b.descriptionTag.getD "Brak opisu".data = "Brak opisu".data)
    ∧ (b.dateInfoTag = none → b.dateInfoTag.getD [] = []) := by
  refine ⟨?_, fun hr => by simp [hr], fun hd => by simp [hd], fun hi => by simp [hi]⟩
  simp only [parseOutageBlock, h]

/-- C9 witness: a block with no heading and no description but a parsable
date text yields the record with both sentinel strings. -/
theorem claim_C9_witness :
    parseOutageBlock ⟨none, none, some "29 listopada 2025 r. do godziny 14:30".data⟩
      = .ok ⟨"Nieznany obszar".data, "Brak opisu".data, none,
          some ⟨2025, 11, 29, 14, 30⟩⟩ := by
  have h := claim_C9 ⟨none, none, some "29 listopada 2025 r. do godziny 14:30".data⟩
    none ⟨2025, 11, 29, 14, 30⟩ rfl
  exact h.1

/-- C10: an out-of-range day (32) in the unplanned pattern and an
out-of-range hour (25) in the planned pattern make the normalizer raise the
datetime value error, a value distinct from both the format error and the
unknown-month error, and the region listing still skips such a block. -/
theorem claim_C10 :
    parseDateFormats "32 maja 2025 r. do godziny 12:30".data = .error .badDatetime
    ∧ parseDateFormats "8 maja 2025 r. w godz. 25:00 - 26:00".data = .error .badDatetime
    ∧ decide (DateError.badDatetime
        = DateError.couldNotParse "32 maja 2025 r. do godziny 12:30".data) = false
    ∧ decide (DateError.badDatetime = DateError.unknownMonth "maja".data) = false
    ∧ getOutagesForRegion
        (fun _ => ⟨[⟨some "A".data, some "D".data,
          some "32 maja 2025 r. do godziny 12:30".data⟩], none⟩)
        (.ok ⟨200, "strona".data⟩) = .ok [] := by
  exact ⟨rfl, rfl, rfl, rfl, rfl⟩

end Enea
